import Mathlib

/-!
Verification of the `executor` native extension library (src/source/library.cpp)
against its natural-language specification.

The single C++ source file embeds a Luau/Lua interpreter.  We shallowly embed
the library's own code:

* the filesystem visible to the library is a `FS` value (a set of directories
  plus a finite map from paths to byte contents);
* the interpreter state manipulated through the C API is a `VM` value
  (value stack, globals table, registry table, next free registry key);
* Lua values that the library can see or produce are `LuaValue`;
* the external Luau engine (headers `lua.h`/`lauxlib.h`, not part of this
  repository) is embedded through the exact stack effects its documented API
  functions have (`lua_pushstring`, `luaL_ref`, ...); the one genuinely
  opaque call, running the bundled bootstrap source through
  `luau_load` + `lua_pcall`, is abstracted by an `ExecOutcome` parameter that
  says whether the load failed, the run failed, or the run returned a list of
  values — exactly the three cases the C++ code branches on.

Byte strings are `List Nat` (one `Nat` per byte); C strings obtained from
`lua_tostring` are cut at the first NUL byte by `cstr`, as `const char*`
handling (`strlen`, `operator<<`, `std::string::operator+=`) does.
-/

namespace Executor

/-- A byte string: one `Nat` per byte. -/
abbrev ByteStr := List Nat

/-- Bytes of a Lean string literal (used for the literals in the C++ source). -/
def strBytes (s : String) : ByteStr :=
  s.data.map Char.toNat

/-- The byte sequence a `const char*` view of `s` denotes: everything up to the
first NUL byte.  This is what `strlen`-based C++ operations
(`std::string += const char*`, `stream << const char*`, `lua_pushstring`) see. -/
def cstr (s : ByteStr) : ByteStr :=
  s.takeWhile (fun b => b != 0)

/-- Lua values the library can observe or produce.  Script function values are
identified by an id; host (C) function values by their registration name. -/
inductive LuaValue
  | nil
  | boolean (b : Bool)
  | number (n : Int)
  | str (s : ByteStr)
  | hostfn (name : String)
  | luafn (id : Nat)
deriving DecidableEq

/-- `lua_isfunction` on an (optional) stack slot: true for script functions and
host functions, false for every other value and for an absent slot. -/
def lua_isfunction : Option LuaValue → Bool
  | some (LuaValue.hostfn _) => true
  | some (LuaValue.luafn _) => true
  | _ => false

/-- `lua_tostring` on an (optional) stack slot: strings are returned as they
are; numbers are coerced to their decimal representation (Lua's conversion
rule); every other value — and an absent argument — yields a null pointer. -/
def lua_tostring : Option LuaValue → Option ByteStr
  | some (LuaValue.str s) => some s
  | some (LuaValue.number n) => some (strBytes (toString n))
  | _ => none

/-- The filesystem under the process's current working directory: the set of
existing directories and a map from file paths to byte contents. -/
structure FS where
  dirs : List ByteStr
  files : List (ByteStr × ByteStr)
deriving DecidableEq

/-- Contents of the file at `p`, if a file exists there. -/
def lookupFile (fs : FS) (p : ByteStr) : Option ByteStr :=
  (fs.files.find? (fun e => e.1 = p)).map Prod.snd

/-- Overwrite (or create) the file at `p` with contents `c`. -/
def setFile (fs : FS) (p : ByteStr) (c : ByteStr) : FS :=
  { fs with files := (p, c) :: fs.files.filter (fun e => e.1 ≠ p) }

/-- The workspace directory path literal, `"workspace"`. -/
def wsPath : ByteStr :=
  strBytes "workspace"

/-- Directory part of a path: the bytes before the last `/` (byte 47);
empty (the current working directory, which always exists) if there is none. -/
def dirname (p : ByteStr) : ByteStr :=
  ((p.reverse.dropWhile (fun b => b != 47)).drop 1).reverse

/-- Embeds `ensureWorkspaceDirectory` (library.cpp lines 47-54).  The C++ runs
`system("mkdir -p workspace")` and ignores the exit status: the directory is
created when absent; when `workspace` already exists as a directory nothing
happens; when it exists as a plain file `mkdir -p` fails, but the failure is
silently discarded (the function returns `void`), leaving the filesystem
unchanged.  There is no error channel in the return type because the code
has none. -/
def ensureWorkspaceDirectory (fs : FS) : FS :=
  if fs.files.any (fun e => e.1 = wsPath) then fs
  else if wsPath ∈ fs.dirs then fs
  else { fs with dirs := wsPath :: fs.dirs }

/-- The full path the C++ builds for a script-supplied name (library.cpp
lines 67-69 and 105-107): `std::string fullPath = "workspace/"; fullPath +=
filename;` — the `const char*` append stops at the first NUL byte. -/
def fullPathOf (filename : ByteStr) : ByteStr :=
  strBytes "workspace/" ++ cstr filename

/-- Open for reading (`std::ifstream`) and read to end: succeeds exactly when
a file exists at `p`, yielding its raw bytes. -/
def openRead (fs : FS) (p : ByteStr) : Option ByteStr :=
  lookupFile fs p

/-- Open for writing (`std::ofstream` constructor): truncate-creates the file
at `p` when the parent directory exists and `p` is not itself a directory;
otherwise the open fails (`is_open()` is false). -/
def openWrite (fs : FS) (p : ByteStr) : Option FS :=
  if p ∈ fs.dirs then none
  else if dirname p ∈ fs.dirs then some (setFile fs p [])
  else none

/-- Embeds the native function `readfile` (library.cpp lines 57-85): the stack
pushes it performs, paired with the resulting filesystem.  The C++ also
returns a `std::string` to its (sole) C++ caller, which ignores it; that dead
native-side return is not modelled.  `args` is the function's argument frame
(`args.get? 0` is stack index 1).  Pushed values are listed in push order. -/
def readfile (fs : FS) (args : List LuaValue) : FS × List LuaValue :=
  match lua_tostring (args.get? 0) with
  | none =>
      (fs, [LuaValue.nil, LuaValue.str (strBytes "No filename provided")])
  | some filename =>
      let fs1 := ensureWorkspaceDirectory fs
      let fullPath := fullPathOf filename
      match openRead fs1 fullPath with
      | none =>
          (fs1, [LuaValue.nil, LuaValue.str (strBytes "Failed to open file")])
      | some contents =>
          (fs1, [LuaValue.str (cstr contents)])

/-- Embeds the lambda registered under the global name `readfile`
(library.cpp lines 89-92): it calls the native `readfile` and then returns 1
as its result count, whatever `readfile` pushed.  Result: filesystem, values
pushed in push order, and the declared result count. -/
def readfile_lua (fs : FS) (args : List LuaValue) : FS × List LuaValue × Nat :=
  let r := readfile fs args
  (r.1, r.2, 1)

/-- Embeds the lambda registered under the global name `writefile`
(library.cpp lines 94-128).  `writeOk` models whether the underlying device
write (`file << content`) succeeds — a runtime condition (e.g. a full disk)
recorded only in the stream's state, which the C++ never inspects after the
`<<` or the `close()`.  On a failed device write the truncate-created file
keeps whatever was durably written; we model the strongest observable
divergence, nothing. -/
def writefile_lua (writeOk : Bool) (fs : FS) (args : List LuaValue) :
    FS × List LuaValue × Nat :=
  match lua_tostring (args.get? 0), lua_tostring (args.get? 1) with
  | some filename, some content =>
      let fs1 := ensureWorkspaceDirectory fs
      let fullPath := fullPathOf filename
      let fs2 := ensureWorkspaceDirectory fs1
      match openWrite fs2 fullPath with
      | none => (fs2, [LuaValue.boolean false], 1)
      | some fs3 =>
          let fs4 := if writeOk then setFile fs3 fullPath (cstr content) else fs3
          (fs4, [LuaValue.boolean true], 1)
  | _, _ => (fs, [LuaValue.boolean false], 1)

/-- The values a script caller observes from a registered function: the top
`nret` of the values the function pushed, bottom-to-top (the Lua C calling
convention takes the last `n` stack values as the results when the C function
returns `n`). -/
def observedResults (pushed : List LuaValue) (nret : Nat) : List LuaValue :=
  pushed.drop (pushed.length - nret)

/-- The interpreter state as the library's C API calls see it: the value stack
(top first; the part below the entry frame included), the globals table, the
registry table, and the next key `luaL_ref` will hand out. -/
structure VM where
  stack : List LuaValue
  globals : List (String × LuaValue)
  registry : List (Int × LuaValue)
  nextRef : Int
deriving DecidableEq

/-- Push a value on the stack. -/
def VM.push (vm : VM) (v : LuaValue) : VM :=
  { vm with stack := v :: vm.stack }

/-- `lua_pop(L, 1)`. -/
def VM.pop (vm : VM) : VM :=
  { vm with stack := vm.stack.tail }

/-- The value at stack index -1, if any. -/
def VM.top (vm : VM) : Option LuaValue :=
  vm.stack.head?

/-- Value bound to a global name. -/
def lookupGlobal (vm : VM) (n : String) : Option LuaValue :=
  (vm.globals.find? (fun e => e.1 = n)).map Prod.snd

/-- `lua_pushvalue(L, -1)`: duplicate the top of the stack. -/
def lua_pushvalue_top (vm : VM) : VM :=
  match vm.stack with
  | [] => vm
  | v :: _ => vm.push v

/-- `luaL_ref(L, LUA_REGISTRYINDEX)`: pop the top value, store it in the
registry under a fresh integer key, and return that key.  A popped `nil` is
not stored and yields `LUA_REFNIL` (-1); this branch is unreachable from the
library (the caller has checked `lua_isfunction`). -/
def luaL_ref (vm : VM) : Int × VM :=
  match vm.stack with
  | [] => (-1, vm)
  | LuaValue.nil :: rest => (-1, { vm with stack := rest })
  | v :: rest =>
      (vm.nextRef,
       { vm with
           stack := rest
           registry := (vm.nextRef, v) :: vm.registry
           nextRef := vm.nextRef + 1 })

/-- `lua_register(L, name, fn)`: bind the host function named `name` in the
globals table.  The push of the C closure and the `lua_setglobal` cancel, so
the stack is unchanged. -/
def lua_register (vm : VM) (name : String) : VM :=
  { vm with globals := (name, LuaValue.hostfn name) :: vm.globals }

/-- Embeds `registerExecutorFunctions` (library.cpp lines 88-129): registers
the `readfile` lambda, then the `writefile` lambda, under those global
names. -/
def registerExecutorFunctions (vm : VM) : VM :=
  lua_register (lua_register vm "readfile") "writefile"

/-- Outcome of handing the bundled bootstrap source to the external Luau
engine (`luau_load` then `lua_pcall` with `LUA_MULTRET`) — the engine itself
is not repository code, so only its three documented outcomes are modelled:
the load fails leaving an error object, the protected call fails leaving an
error object, or the call succeeds leaving the chunk's return values. -/
inductive ExecOutcome
  | loadError (msg : ByteStr)
  | runError (msg : ByteStr)
  | success (rets : List LuaValue)
deriving DecidableEq

/-- Embeds the file-local `luaL_dostring` helper (library.cpp lines 20-25):
resulting stack state, paired with `true` when the returned status was
nonzero.  On a load failure the error object stays on the stack and status 1
is returned; on a `lua_pcall` failure the chunk has been replaced by the error
object; on success the chunk has been replaced by its return values. -/
def luaL_dostring (outcome : ExecOutcome) (vm : VM) : VM × Bool :=
  match outcome with
  | ExecOutcome.loadError msg => (vm.push (LuaValue.str msg), true)
  | ExecOutcome.runError msg => (vm.push (LuaValue.str msg), true)
  | ExecOutcome.success rets => (rets.foldl VM.push vm, false)

/-- Embeds `executeMainLuau` (library.cpp lines 132-150): run the script; on a
nonzero status fetch the error message, pop it, and report `false`; otherwise
check the top of the stack with `lua_isfunction`, popping the value and
reporting `false` when it is not a function, and leaving it in place and
reporting `true` when it is. -/
def executeMainLuau (outcome : ExecOutcome) (vm : VM) : VM × Bool :=
  let r := luaL_dostring outcome vm
  if r.2 then (r.1.pop, false)
  else if lua_isfunction r.1.top then (r.1, true)
  else (r.1.pop, false)

/-- Embeds `hookPlayerAddedEvent` (library.cpp lines 153-160): duplicate the
top of the stack, move the duplicate into the registry with `luaL_ref`.  The
key `luaL_ref` returns is bound to the local `int functionRef` and then
dropped — the function returns only `L` (here: the updated state), so no
native-side record of the key survives the call. -/
def hookPlayerAddedEvent (vm : VM) : VM :=
  let vm1 := lua_pushvalue_top vm
  (luaL_ref vm1).2

/-- Embeds the entry point `luaopen_mylibrary` (library.cpp lines 206-221):
ensure the workspace, register the host functions, run the bundled bootstrap,
and, only when that reported success, hook the returned callable; finally
return 1 as the declared number of returned values (unconditionally — also on
the failure paths, which leave no value behind).  Result: filesystem,
interpreter state, and the C `int` returned to the host. -/
def luaopen_mylibrary (outcome : ExecOutcome) (fs : FS) (vm : VM) :
    FS × VM × Int :=
  let fs1 := ensureWorkspaceDirectory fs
  let vm1 := registerExecutorFunctions vm
  let r := executeMainLuau outcome vm1
  let vm3 := if r.2 then hookPlayerAddedEvent r.1 else r.1
  (fs1, vm3, 1)

/-- True when the bootstrap outcome is a load or run failure. -/
def bootFails : ExecOutcome → Bool
  | ExecOutcome.loadError _ => true
  | ExecOutcome.runError _ => true
  | ExecOutcome.success _ => false

/-- True when the bootstrap run succeeded returning exactly one value which is
callable — the shape the bundled bootstrap produces. -/
def bootOneCallable : ExecOutcome → Bool
  | ExecOutcome.success [v] => lua_isfunction (some v)
  | _ => false

/-- True when the bootstrap fails to load, fails to run, or returns a single
non-callable value — the failure cases of the spec's bootstrap protocol. -/
def bootFailsOrNonCallable : ExecOutcome → Bool
  | ExecOutcome.loadError _ => true
  | ExecOutcome.runError _ => true
  | ExecOutcome.success [v] => !lua_isfunction (some v)
  | ExecOutcome.success _ => false

/-- Workspace Manager failure from the spec (§4.1, §7). -/
inductive WorkspaceErr
  | workspaceUnavailable
deriving DecidableEq

/-- Follows the spec's words (§4.1), for comparison with the code's
`ensureWorkspaceDirectory`: `ensure()` creates the directory, succeeds
silently when it already exists, and fails with `WorkspaceUnavailable` when
the path exists as a non-directory. -/
def ensureSpec (fs : FS) : Except WorkspaceErr FS :=
  if fs.files.any (fun e => e.1 = wsPath) then
    Except.error WorkspaceErr.workspaceUnavailable
  else if wsPath ∈ fs.dirs then Except.ok fs
  else Except.ok { fs with dirs := wsPath :: fs.dirs }

/-- An empty filesystem: no directories, no files. -/
def emptyFS : FS :=
  ⟨[], []⟩

/-- A fresh interpreter state: empty stack, globals and registry. -/
def vm0 : VM :=
  ⟨[], [], [], 0⟩

/-! ### Helper lemmas -/

theorem cstr_eq_self {s : ByteStr} (h : (0 : Nat) ∉ s) : cstr s = s := by
  induction s with
  | nil => rfl
  | cons a t ih =>
      have ha : a ≠ 0 := fun e => h (e ▸ List.mem_cons_self a t)
      have ht : (0 : Nat) ∉ t := fun e => h (List.mem_cons_of_mem a e)
      simp [cstr, List.takeWhile_cons, ha, Ne.symm ha]
      exact fun x hx e => ht (e ▸ hx)

theorem ensure_files (fs : FS) :
    (ensureWorkspaceDirectory fs).files = fs.files := by
  unfold ensureWorkspaceDirectory
  split
  · rfl
  split
  · rfl
  · rfl

theorem mem_dirs_ensure (fs : FS)
    (h : fs.files.any (fun e => e.1 = wsPath) = false) :
    wsPath ∈ (ensureWorkspaceDirectory fs).dirs := by
  unfold ensureWorkspaceDirectory
  by_cases h2 : wsPath ∈ fs.dirs <;> simp [h, h2]

theorem not_mem_dirs_ensure {fs : FS} {p : ByteStr}
    (hp : p ≠ wsPath) (h : p ∉ fs.dirs) :
    p ∉ (ensureWorkspaceDirectory fs).dirs := by
  unfold ensureWorkspaceDirectory
  split
  · exact h
  split
  · exact h
  · simp [List.mem_cons, hp, h]

theorem ensure_noop {fs : FS} (hmem : wsPath ∈ fs.dirs) :
    ensureWorkspaceDirectory fs = fs := by
  unfold ensureWorkspaceDirectory
  split
  · rfl
  · simp [hmem]

theorem ensure_idem (fs : FS) :
    ensureWorkspaceDirectory (ensureWorkspaceDirectory fs) =
      ensureWorkspaceDirectory fs := by
  unfold ensureWorkspaceDirectory
  by_cases h1 : fs.files.any (fun e => e.1 = wsPath) = true
  · simp [h1]
  · by_cases h2 : wsPath ∈ fs.dirs
    · simp [h1, h2]
    · simp [h1, h2, List.mem_cons]

/-! ### Claim theorems -/

/-- C10: `hookPlayerAddedEvent` leaves the interpreter's value stack exactly as
it found it — the single `lua_pushvalue(L, -1)` duplicate is the value
`luaL_ref` pops — and the globals table is untouched as well; only the
registry gains an entry. -/
theorem c10_hook_stack_neutral (vm : VM) :
    (hookPlayerAddedEvent vm).stack = vm.stack ∧
      (hookPlayerAddedEvent vm).globals = vm.globals := by
  cases vm with
  | mk stack globals registry nextRef =>
      cases stack with
      | nil => exact ⟨rfl, rfl⟩
      | cons v rest => cases v <;> exact ⟨rfl, rfl⟩

/-- C1: evaluation of the load at a bootstrap outcome that returns a callable.
The duplicate of the callable is moved into the interpreter's registry (under
key 0 here), but the complete native result of `luaopen_mylibrary` — the
filesystem, the interpreter state, and the returned `int` 1 — is all the load
produces: the key `luaL_ref` returned was bound to the dead local
`functionRef` inside `hookPlayerAddedEvent` and recorded nowhere, so no
native state holds it and no invoke path exists. -/
theorem c1_key_discarded_eval :
    luaopen_mylibrary (ExecOutcome.success [LuaValue.luafn 0]) emptyFS vm0 =
      (⟨[wsPath], []⟩,
       ⟨[LuaValue.luafn 0],
        [("writefile", LuaValue.hostfn "writefile"),
         ("readfile", LuaValue.hostfn "readfile")],
        [(0, LuaValue.luafn 0)], 1⟩, 1) := by
  rfl

/-- C2: on the two failing `readfile` calls (missing argument; unopenable
file) the native function pushes `nil` then the error string, but the
registered wrapper returns 1, so the script observes exactly one value — the
error string alone, not `nil` followed by it. -/
theorem c2_single_return_observed :
    (readfile_lua emptyFS []).2.1 =
        [LuaValue.nil, LuaValue.str (strBytes "No filename provided")] ∧
      observedResults (readfile_lua emptyFS []).2.1
          (readfile_lua emptyFS []).2.2 =
        [LuaValue.str (strBytes "No filename provided")] ∧
      observedResults
          (readfile_lua emptyFS [LuaValue.str (strBytes "nope")]).2.1
          (readfile_lua emptyFS [LuaValue.str (strBytes "nope")]).2.2 =
        [LuaValue.str (strBytes "Failed to open file")] := by
  exact ⟨rfl, rfl, rfl⟩

/-- C3 counterexample: when the bootstrap fails to load, `luaopen_mylibrary`
still returns 1, yet the stack is left at the entry depth — the final depth
is not the entry depth plus the declared return count. -/
theorem c3_counterexample :
    ¬ ((luaopen_mylibrary (ExecOutcome.loadError (strBytes "bad bytecode"))
          emptyFS vm0).2.1.stack.length =
        vm0.stack.length +
          (luaopen_mylibrary (ExecOutcome.loadError (strBytes "bad bytecode"))
            emptyFS vm0).2.2.toNat) := by
  decide

/-- C4 counterexample: for the byte string `s = [104, 0, 105]` (which has an
interior NUL byte), `writefile("k", s)` followed by `readfile("k")` returns
`[104]`, not `s`: both the `operator<<` write and the `lua_pushstring` reread
go through `const char*` and stop at the first NUL. -/
theorem c4_counterexample :
    observedResults
        (readfile_lua
          (writefile_lua true emptyFS
            [LuaValue.str (strBytes "k"), LuaValue.str [104, 0, 105]]).1
          [LuaValue.str (strBytes "k")]).2.1
        (readfile_lua
          (writefile_lua true emptyFS
            [LuaValue.str (strBytes "k"), LuaValue.str [104, 0, 105]]).1
          [LuaValue.str (strBytes "k")]).2.2 =
      [LuaValue.str [104]] ∧ [(104 : Nat)] ≠ [104, 0, 105] := by
  exact ⟨rfl, by decide⟩

/-- C6 counterexample: `writefile` with the number `1` as first argument does
not return false — `lua_tostring` coerces the number to the string `"1"`, the
call returns true, and the file `workspace/1` is created with the content. -/
theorem c6_counterexample :
    (writefile_lua true emptyFS
        [LuaValue.number 1, LuaValue.str [120]]).2.1 =
        [LuaValue.boolean true] ∧
      lookupFile
        (writefile_lua true emptyFS
          [LuaValue.number 1, LuaValue.str [120]]).1
        (strBytes "workspace/1") = some [120] := by
  exact ⟨rfl, rfl⟩

/-- C7 counterexample: when the device write fails after a successful open
(`writeOk = false`), `writefile("k", "hi")` still returns true although the
file does not contain the content — the source never checks the stream state
after `operator<<` or `close()`. -/
theorem c7_counterexample :
    (writefile_lua false emptyFS
        [LuaValue.str (strBytes "k"), LuaValue.str (strBytes "hi")]).2.1 =
        [LuaValue.boolean true] ∧
      lookupFile
        (writefile_lua false emptyFS
          [LuaValue.str (strBytes "k"), LuaValue.str (strBytes "hi")]).1
        (strBytes "workspace/k") ≠ some (strBytes "hi") := by
  exact ⟨rfl, by decide⟩

/-- C8 counterexample: when the path `workspace` exists as a plain file, the
spec's `ensure()` fails with `WorkspaceUnavailable`, but the code's
`ensureWorkspaceDirectory` — whose return type has no error channel, the
`system` exit status being discarded — completes normally and leaves the
filesystem unchanged. -/
theorem c8_counterexample :
    ensureSpec ⟨[], [(wsPath, [])]⟩ =
        Except.error WorkspaceErr.workspaceUnavailable ∧
      ensureWorkspaceDirectory ⟨[], [(wsPath, [])]⟩ =
        (⟨[], [(wsPath, [])]⟩ : FS) := by
  exact ⟨rfl, rfl⟩

/-- C9 counterexample: the path the code opens is the NUL-truncated
concatenation, not `"workspace/" ++ x`: with `x = [97, 0, 98]` (`"a\0b"`) and
two files on disk, `readfile(x)` returns the contents of `workspace/a`
(byte 56), not those of the file whose name really is `a\0b` (byte 55). -/
theorem c9_counterexample :
    (readfile
        ⟨[wsPath],
         [(strBytes "workspace/" ++ [97, 0, 98], [55]),
          (strBytes "workspace/a", [56])]⟩
        [LuaValue.str [97, 0, 98]]).2 = [LuaValue.str [56]] ∧
      fullPathOf [97, 0, 98] ≠ strBytes "workspace/" ++ [97, 0, 98] := by
  exact ⟨rfl, by decide⟩

theorem ensure_iterate (fs : FS) (m : Nat) :
    Nat.iterate ensureWorkspaceDirectory m (ensureWorkspaceDirectory fs) =
      ensureWorkspaceDirectory fs := by
  induction m with
  | zero => rfl
  | succ k ih => rw [Function.iterate_succ_apply, ensure_idem, ih]

/-- C3 (amended): the entry point always returns 1; the exit stack depth is
the entry depth plus that declared count when the bootstrap run leaves a
single callable, but when the bootstrap fails to load or run the depth is
just the entry depth — the declared return count of 1 is not matched by a
pushed value on the failure path. -/
theorem c3_stack_depth_amended (out : ExecOutcome) (fs : FS) (vm : VM)
    (h : bootFails out = true ∨ bootOneCallable out = true) :
    (luaopen_mylibrary out fs vm).2.2 = 1 ∧
      (luaopen_mylibrary out fs vm).2.1.stack.length =
        vm.stack.length + (if bootOneCallable out then 1 else 0) := by
  cases out with
  | loadError msg => exact ⟨rfl, rfl⟩
  | runError msg => exact ⟨rfl, rfl⟩
  | success rets =>
      rcases h with h | h
      · exact Bool.noConfusion h
      · rcases rets with _ | ⟨v, _ | ⟨w, t⟩⟩
        · exact Bool.noConfusion h
        · cases v with
          | nil => exact Bool.noConfusion h
          | boolean b => exact Bool.noConfusion h
          | number n => exact Bool.noConfusion h
          | str s => exact Bool.noConfusion h
          | hostfn n => exact ⟨rfl, rfl⟩
          | luafn i => exact ⟨rfl, rfl⟩
        · exact Bool.noConfusion h

/-- C3 witness: the amended statement instantiated at a load failure on a
fresh interpreter. -/
theorem c3_stack_depth_witness :
    (bootFails (ExecOutcome.loadError (strBytes "e")) = true ∨
        bootOneCallable (ExecOutcome.loadError (strBytes "e")) = true) ∧
      ((luaopen_mylibrary (ExecOutcome.loadError (strBytes "e")) emptyFS
            vm0).2.2 = 1 ∧
        (luaopen_mylibrary (ExecOutcome.loadError (strBytes "e")) emptyFS
            vm0).2.1.stack.length =
          vm0.stack.length +
            (if bootOneCallable (ExecOutcome.loadError (strBytes "e")) then 1
             else 0)) :=
  ⟨Or.inl rfl,
   c3_stack_depth_amended (ExecOutcome.loadError (strBytes "e")) emptyFS vm0
     (Or.inl rfl)⟩

/-- C5: on every bootstrap failure — load error, runtime error, or a single
non-callable return — the load still succeeds (the entry point returns 1),
`readfile` and `writefile` are bound in the globals table to the registered
host functions, and the event-handler path is left unset: the registry and
the next reference key are exactly as they were on entry. -/
theorem c5_graceful_failure (out : ExecOutcome) (fs : FS) (vm : VM)
    (h : bootFailsOrNonCallable out = true) :
    (luaopen_mylibrary out fs vm).2.2 = 1 ∧
      lookupGlobal (luaopen_mylibrary out fs vm).2.1 "readfile" =
        some (LuaValue.hostfn "readfile") ∧
      lookupGlobal (luaopen_mylibrary out fs vm).2.1 "writefile" =
        some (LuaValue.hostfn "writefile") ∧
      (luaopen_mylibrary out fs vm).2.1.registry = vm.registry ∧
      (luaopen_mylibrary out fs vm).2.1.nextRef = vm.nextRef := by
  cases out with
  | loadError msg => exact ⟨rfl, rfl, rfl, rfl, rfl⟩
  | runError msg => exact ⟨rfl, rfl, rfl, rfl, rfl⟩
  | success rets =>
      rcases rets with _ | ⟨v, _ | ⟨w, t⟩⟩
      · exact Bool.noConfusion h
      · cases v with
        | nil => exact ⟨rfl, rfl, rfl, rfl, rfl⟩
        | boolean b => exact ⟨rfl, rfl, rfl, rfl, rfl⟩
        | number n => exact ⟨rfl, rfl, rfl, rfl, rfl⟩
        | str s => exact ⟨rfl, rfl, rfl, rfl, rfl⟩
        | hostfn n => exact Bool.noConfusion h
        | luafn i => exact Bool.noConfusion h
      · exact Bool.noConfusion h

/-- C5 witness: the statement instantiated at a bootstrap load failure on a
fresh interpreter. -/
theorem c5_graceful_failure_witness :
    bootFailsOrNonCallable (ExecOutcome.loadError (strBytes "e")) = true ∧
      ((luaopen_mylibrary (ExecOutcome.loadError (strBytes "e")) emptyFS
            vm0).2.2 = 1 ∧
        lookupGlobal
            (luaopen_mylibrary (ExecOutcome.loadError (strBytes "e")) emptyFS
              vm0).2.1 "readfile" = some (LuaValue.hostfn "readfile") ∧
        lookupGlobal
            (luaopen_mylibrary (ExecOutcome.loadError (strBytes "e")) emptyFS
              vm0).2.1 "writefile" = some (LuaValue.hostfn "writefile") ∧
        (luaopen_mylibrary (ExecOutcome.loadError (strBytes "e")) emptyFS
            vm0).2.1.registry = vm0.registry ∧
        (luaopen_mylibrary (ExecOutcome.loadError (strBytes "e")) emptyFS
            vm0).2.1.nextRef = vm0.nextRef) :=
  ⟨rfl,
   c5_graceful_failure (ExecOutcome.loadError (strBytes "e")) emptyFS vm0 rfl⟩

/-- C6 (amended): an argument is rejected exactly when `lua_tostring` cannot
convert it (absent, `nil`, boolean, function values) — numbers are coerced to
their decimal string and accepted, contrary to the claim.  On rejection the
native `readfile` pushes `nil` followed by the error string (the script-side
truncation to one value is the C2 defect), and `writefile` returns boolean
false leaving the filesystem untouched. -/
theorem c6_argcheck_amended (fs : FS) (args : List LuaValue) (writeOk : Bool) :
    (lua_tostring (args.get? 0) = none →
        readfile fs args =
          (fs, [LuaValue.nil, LuaValue.str (strBytes "No filename provided")])) ∧
      ((lua_tostring (args.get? 0) = none ∨ lua_tostring (args.get? 1) = none) →
        writefile_lua writeOk fs args = (fs, [LuaValue.boolean false], 1)) := by
  constructor
  · intro h
    unfold readfile
    rw [h]
  · intro h
    rcases h with h | h
    · cases h1 : lua_tostring (args.get? 1) <;>
        · unfold writefile_lua
          rw [h, h1]
    · cases h0 : lua_tostring (args.get? 0) <;>
        · unfold writefile_lua
          rw [h, h0]

/-- C6 witness: the amended statement instantiated at a call with no
arguments. -/
theorem c6_argcheck_witness :
    lua_tostring (([] : List LuaValue).get? 0) = none ∧
      readfile emptyFS [] =
        (emptyFS,
         [LuaValue.nil, LuaValue.str (strBytes "No filename provided")]) ∧
      writefile_lua true emptyFS [] = (emptyFS, [LuaValue.boolean false], 1) :=
  ⟨rfl, (c6_argcheck_amended emptyFS [] true).1 rfl,
   (c6_argcheck_amended emptyFS [] true).2 (Or.inl rfl)⟩

/-- C7 (amended): for string arguments, `writefile` reports true exactly when
the `std::ofstream` open of `workspace/<name>` succeeded — independently of
whether the subsequent device write succeeded (`writeOk`), because the stream
state is never checked after `operator<<` or `close()`. -/
theorem c7_writefile_amended (writeOk : Bool) (fs : FS)
    (name content : ByteStr) :
    (writefile_lua writeOk fs
        [LuaValue.str name, LuaValue.str content]).2 =
      ([LuaValue.boolean
          (openWrite (ensureWorkspaceDirectory fs) (fullPathOf name)).isSome],
       1) := by
  unfold writefile_lua
  rw [show lua_tostring ([LuaValue.str name,
        LuaValue.str content].get? 0) = some name from rfl,
      show lua_tostring ([LuaValue.str name,
        LuaValue.str content].get? 1) = some content from rfl]
  simp only [ensure_idem]
  cases h : openWrite (ensureWorkspaceDirectory fs) (fullPathOf name) <;>
    simp [h]

/-- C8 (amended): `ensureWorkspaceDirectory` run N ≥ 1 times has the same
effect as running it once, and it never fails when the directory already
exists; but when the path exists as a plain file it does not signal
`WorkspaceUnavailable` — the `mkdir -p` exit status is discarded and the call
silently leaves the filesystem unchanged. -/
theorem c8_ensure_amended (fs : FS) (n : Nat) (hn : 1 ≤ n) :
    Nat.iterate ensureWorkspaceDirectory n fs = ensureWorkspaceDirectory fs ∧
      (wsPath ∈ fs.dirs → ensureWorkspaceDirectory fs = fs) ∧
      (fs.files.any (fun e => e.1 = wsPath) = true →
        ensureWorkspaceDirectory fs = fs) := by
  refine ⟨?_, fun h => ensure_noop h, fun h => ?_⟩
  · obtain ⟨m, rfl⟩ : ∃ m, n = m + 1 :=
      ⟨n - 1, (Nat.succ_pred_eq_of_pos hn).symm⟩
    rw [Function.iterate_succ_apply, ensure_iterate]
  · unfold ensureWorkspaceDirectory
    simp [h]

/-- C8 witness: the amended statement instantiated at N = 2 on the empty
filesystem. -/
theorem c8_ensure_witness :
    1 ≤ 2 ∧
      (Nat.iterate ensureWorkspaceDirectory 2 emptyFS =
          ensureWorkspaceDirectory emptyFS ∧
        (wsPath ∈ emptyFS.dirs → ensureWorkspaceDirectory emptyFS = emptyFS) ∧
        (emptyFS.files.any (fun e => e.1 = wsPath) = true →
          ensureWorkspaceDirectory emptyFS = emptyFS)) :=
  ⟨by decide, c8_ensure_amended emptyFS 2 (by decide)⟩

/-- C9 (amended): for a string name `x` free of NUL bytes the path touched is
exactly `"workspace/" ++ x` (for names with an interior NUL it is the
truncated prefix), the workspace is ensured before the open on both
operations, reads leave the filesystem at exactly the ensured state, and
writes change exactly the file at that path of the ensured state. -/
theorem c9_path_amended (fs : FS) (x c : ByteStr) (writeOk : Bool)
    (hx : (0 : Nat) ∉ x) :
    fullPathOf x = strBytes "workspace/" ++ x ∧
      (readfile fs [LuaValue.str x]).1 = ensureWorkspaceDirectory fs ∧
      (readfile fs [LuaValue.str x]).2 =
        (match lookupFile (ensureWorkspaceDirectory fs)
            (strBytes "workspace/" ++ x) with
         | some contents => [LuaValue.str (cstr contents)]
         | none =>
             [LuaValue.nil, LuaValue.str (strBytes "Failed to open file")]) ∧
      (writefile_lua writeOk fs [LuaValue.str x, LuaValue.str c]).1 =
        (match openWrite (ensureWorkspaceDirectory fs)
            (strBytes "workspace/" ++ x) with
         | some fs3 =>
             if writeOk then
               setFile fs3 (strBytes "workspace/" ++ x) (cstr c)
             else fs3
         | none => ensureWorkspaceDirectory fs) := by
  have hp : fullPathOf x = strBytes "workspace/" ++ x := by
    unfold fullPathOf
    rw [cstr_eq_self hx]
  refine ⟨hp, ?_, ?_, ?_⟩
  · unfold readfile
    rw [show lua_tostring ([LuaValue.str x].get? 0) = some x from rfl]
    cases h : openRead (ensureWorkspaceDirectory fs) (fullPathOf x) <;>
      simp [h]
  · cases h : lookupFile (ensureWorkspaceDirectory fs)
        (strBytes "workspace/" ++ x) <;>
      simp [readfile, lua_tostring, openRead, hp, h]
  · unfold writefile_lua
    rw [show lua_tostring ([LuaValue.str x, LuaValue.str c].get? 0) =
          some x from rfl,
        show lua_tostring ([LuaValue.str x, LuaValue.str c].get? 1) =
          some c from rfl]
    simp only [ensure_idem]
    rw [hp]
    cases h : openWrite (ensureWorkspaceDirectory fs)
        (strBytes "workspace/" ++ x) <;> simp [h]

/-- C9 witness: the amended statement instantiated at the NUL-free name
`"k"`, content `"v"`, on the empty filesystem. -/
theorem c9_path_witness :
    (0 : Nat) ∉ strBytes "k" ∧
      (fullPathOf (strBytes "k") =
          strBytes "workspace/" ++ strBytes "k" ∧
        (readfile emptyFS [LuaValue.str (strBytes "k")]).1 =
          ensureWorkspaceDirectory emptyFS ∧
        (readfile emptyFS [LuaValue.str (strBytes "k")]).2 =
          (match lookupFile (ensureWorkspaceDirectory emptyFS)
              (strBytes "workspace/" ++ strBytes "k") with
           | some contents => [LuaValue.str (cstr contents)]
           | none =>
               [LuaValue.nil,
                LuaValue.str (strBytes "Failed to open file")]) ∧
        (writefile_lua true emptyFS
            [LuaValue.str (strBytes "k"), LuaValue.str (strBytes "v")]).1 =
          (match openWrite (ensureWorkspaceDirectory emptyFS)
              (strBytes "workspace/" ++ strBytes "k") with
           | some fs3 =>
               if true then
                 setFile fs3 (strBytes "workspace/" ++ strBytes "k")
                   (cstr (strBytes "v"))
               else fs3
           | none => ensureWorkspaceDirectory emptyFS)) :=
  ⟨by decide,
   c9_path_amended emptyFS (strBytes "k") (strBytes "v") true (by decide)⟩

/-- C4 (amended): for any byte string `s` free of NUL bytes — and a starting
filesystem where `workspace` is not a plain file and `workspace/k` is not a
directory — `writefile("k", s)` reports true and a following `readfile("k")`
returns exactly `s`, byte for byte. -/
theorem c4_roundtrip_amended (fs : FS) (s : ByteStr)
    (hws : fs.files.any (fun e => e.1 = wsPath) = false)
    (hdir : strBytes "workspace/k" ∉ fs.dirs)
    (hs : (0 : Nat) ∉ s) :
    (writefile_lua true fs
        [LuaValue.str (strBytes "k"), LuaValue.str s]).2 =
        ([LuaValue.boolean true], 1) ∧
      observedResults
          (readfile_lua
            (writefile_lua true fs
              [LuaValue.str (strBytes "k"), LuaValue.str s]).1
            [LuaValue.str (strBytes "k")]).2.1
          (readfile_lua
            (writefile_lua true fs
              [LuaValue.str (strBytes "k"), LuaValue.str s]).1
            [LuaValue.str (strBytes "k")]).2.2 =
        [LuaValue.str s] := by
  have hcs : cstr s = s := cstr_eq_self hs
  have hmem : wsPath ∈ (ensureWorkspaceDirectory fs).dirs :=
    mem_dirs_ensure fs hws
  have hnot : strBytes "workspace/k" ∉ (ensureWorkspaceDirectory fs).dirs :=
    not_mem_dirs_ensure (by decide) hdir
  have hpath : fullPathOf (strBytes "k") = strBytes "workspace/k" := by decide
  have hdirn : dirname (strBytes "workspace/k") = wsPath := by decide
  have hopen : openWrite (ensureWorkspaceDirectory fs)
      (strBytes "workspace/k") =
      some (setFile (ensureWorkspaceDirectory fs) (strBytes "workspace/k")
        []) := by
    unfold openWrite
    rw [hdirn]
    simp [hnot, hmem]
  have hw : writefile_lua true fs
      [LuaValue.str (strBytes "k"), LuaValue.str s] =
      (setFile
        (setFile (ensureWorkspaceDirectory fs) (strBytes "workspace/k") [])
        (strBytes "workspace/k") s,
       [LuaValue.boolean true], 1) := by
    unfold writefile_lua
    rw [show lua_tostring ([LuaValue.str (strBytes "k"),
          LuaValue.str s].get? 0) = some (strBytes "k") from rfl,
        show lua_tostring ([LuaValue.str (strBytes "k"),
          LuaValue.str s].get? 1) = some s from rfl]
    simp only [ensure_idem]
    rw [hpath, hopen]
    simp [hcs]
  rw [hw]
  refine ⟨rfl, ?_⟩
  have hmem2 : wsPath ∈
      (setFile
        (setFile (ensureWorkspaceDirectory fs) (strBytes "workspace/k") [])
        (strBytes "workspace/k") s).dirs := hmem
  have hfind : lookupFile
      (setFile
        (setFile (ensureWorkspaceDirectory fs) (strBytes "workspace/k") [])
        (strBytes "workspace/k") s) (strBytes "workspace/k") = some s := by
    unfold lookupFile setFile
    rw [List.find?_cons_of_pos _ (by simp)]
    rfl
  simp [readfile_lua, readfile, lua_tostring, ensure_noop hmem2, openRead,
        hpath, hfind, hcs, observedResults]

/-- C4 witness: the amended statement instantiated at `s = "hi"` on the empty
filesystem. -/
theorem c4_roundtrip_witness :
    emptyFS.files.any (fun e => e.1 = wsPath) = false ∧
      strBytes "workspace/k" ∉ emptyFS.dirs ∧
      (0 : Nat) ∉ strBytes "hi" ∧
      ((writefile_lua true emptyFS
          [LuaValue.str (strBytes "k"), LuaValue.str (strBytes "hi")]).2 =
          ([LuaValue.boolean true], 1) ∧
        observedResults
            (readfile_lua
              (writefile_lua true emptyFS
                [LuaValue.str (strBytes "k"),
                 LuaValue.str (strBytes "hi")]).1
              [LuaValue.str (strBytes "k")]).2.1
            (readfile_lua
              (writefile_lua true emptyFS
                [LuaValue.str (strBytes "k"),
                 LuaValue.str (strBytes "hi")]).1
              [LuaValue.str (strBytes "k")]).2.2 =
          [LuaValue.str (strBytes "hi")]) :=
  ⟨by decide, by decide, by decide,
   c4_roundtrip_amended emptyFS (strBytes "hi") (by decide) (by decide)
     (by decide)⟩

end Executor
